import Mathlib

/-!
Verification of the streamlink-dashboard Recording Scheduler & Lifecycle
Engine against its specification.

The Python source is shallowly embedded: the persistent state is a list of
`Recording` rows (plus a list of `Schedule` rows where needed), datetimes are
integer seconds, the filesystem is a map from paths to optional file sizes
(`String → Option Nat`, `none` meaning the file does not exist or is not
accessible), and each database-mutating operation becomes a pure function on
that state.  Every definition is translated from the repository source,
module and line references given in its doc comment.
-/

/-- Recording lifecycle status (`Recording.status` column,
`app/database/models.py` line 112; string-valued in the source with values
pending / recording / completed / failed / cancelled). -/
inductive RecStatus where
  | pending
  | recording
  | completed
  | failed
  | cancelled
deriving DecidableEq, Repr

/-- One row of the `recordings` table (`app/database/models.py` lines 96-118)
together with the transient `error_message` attribute that
`app/services/streamlink_service.py` assigns on the ORM object (the column
itself is absent from the model, so the attribute is an in-memory Python
attribute; we carry it to state the error-message claims). -/
structure Recording where
  id : Nat
  scheduleId : Nat
  filePath : String
  fileName : String
  fileSize : Nat
  startTime : Int
  endTime : Option Int
  duration : Option Int
  platform : String
  streamerId : String
  streamerName : String
  quality : String
  status : RecStatus
  isFavorite : Bool
  createdAt : Int
  errorMessage : Option String
deriving DecidableEq, Repr

/-- One row of the `recording_schedules` table with the rotation-policy
fields that `scheduler_service_v2.py` reads off it
(`schedule.rotation_type`, `schedule.max_count`, `schedule.max_age_days`,
`schedule.max_size_gb`, `schedule.protect_favorites`,
`schedule.delete_empty_files`; declared in `app/schemas/schedule.py`
lines 23-29). -/
structure Schedule where
  id : Nat
  platform : String
  streamerId : String
  streamerName : String
  quality : String
  enabled : Bool
  rotationEnabled : Bool
  rotationType : String
  maxAgeDays : Nat
  maxCount : Nat
  maxSizeGb : Nat
  protectFavorites : Bool
  deleteEmptyFiles : Bool
deriving DecidableEq, Repr

/-- Seconds in one day: `timedelta(days=1).total_seconds()`. -/
def secondsPerDay : Nat := 86400

/-- The status filter at the head of `_apply_rotation_policy`
(`app/services/scheduler_service_v2.py` line 124): only rows whose status is
the string `'recording'` are excluded from the rotation input. -/
def activeStatusFilter (recs : List Recording) : List Recording :=
  recs.filter (fun r => decide (r.status ≠ RecStatus.recording))

/-- Count policy (`scheduler_service_v2.py` lines 136-140): when more than
`max_count` rows exist, delete everything after the first `max_count`
(the input list is ordered newest first by `created_at`). -/
def countDelete (maxCount : Nat) (recordings : List Recording) : List Recording :=
  if recordings.length > maxCount then recordings.drop maxCount else []

/-- Time policy (`scheduler_service_v2.py` lines 142-146): delete every row
whose `created_at` is strictly before `now - max_age_days` days. -/
def timeDelete (cutoff : Int) (recordings : List Recording) : List Recording :=
  recordings.filter (fun r => decide (r.createdAt < cutoff))

/-- Size policy walk (`scheduler_service_v2.py` lines 148-156): accumulate
`file_size` newest first; at the first row where the running total exceeds
`max_size_bytes`, delete that row and everything after it. -/
def sizeDelete (total maxBytes : Nat) : List Recording → List Recording
  | [] => []
  | r :: rs =>
      if total + r.fileSize > maxBytes then r :: rs
      else sizeDelete (total + r.fileSize) maxBytes rs

/-- The `files_to_delete` selection of `_apply_rotation_policy`
(`scheduler_service_v2.py` lines 134-157) before the favorites filter;
an unrecognized `rotation_type` selects nothing. -/
def filesToDelete (s : Schedule) (now : Int) (recordings : List Recording) : List Recording :=
  if s.rotationType = "count" then countDelete s.maxCount recordings
  else if s.rotationType = "time" then
    timeDelete (now - (s.maxAgeDays * secondsPerDay : Nat)) recordings
  else if s.rotationType = "size" then
    sizeDelete 0 (s.maxSizeGb * 1024 * 1024 * 1024) recordings
  else []

/-- Favorites filter (`scheduler_service_v2.py` lines 159-164): when
`protect_favorites` is set, favorite rows are removed from the delete set. -/
def protectFilter (s : Schedule) (l : List Recording) : List Recording :=
  if s.protectFavorites then l.filter (fun r => !r.isFavorite) else l

/-- The delete set computed by one `_apply_rotation_policy` call for one
schedule (`scheduler_service_v2.py` lines 117-164): filter out
`'recording'` rows, return early when nothing is left, select by policy,
then protect favorites.  `recs` is the `get_all_for_schedule` result,
ordered newest first (`app/repositories/recording_repository.py`
lines 43-50). -/
def rotationCandidates (s : Schedule) (now : Int) (recs : List Recording) : List Recording :=
  let recordings := activeStatusFilter recs
  if recordings.isEmpty then []
  else protectFilter s (filesToDelete s now recordings)

/-- Database effect of the deletion loop (`scheduler_service_v2.py`
lines 167-183): each selected row is deleted by id
(`uow.recordings.delete(recording.id)`,
`app/repositories/recording_repository.py` lines 64-70). -/
def removeById (recs dels : List Recording) : List Recording :=
  recs.filter (fun r => decide (∀ d ∈ dels, d.id ≠ r.id))

/-- One full rotation pass for one schedule: compute the delete set and
remove those rows (file deletion on disk tolerates missing files and does
not change the row set). -/
def sweepOnce (s : Schedule) (now : Int) (recs : List Recording) : List Recording :=
  removeById recs (rotationCandidates s now recs)

/-- Convenience constructor for concrete test rows: a recording row with the
given identity, size, creation time, status and favorite flag; the remaining
columns take the values the engine writes at creation. -/
def mkRec (i sid sz : Nat) (created : Int) (st : RecStatus) (fav : Bool) : Recording where
  id := i
  scheduleId := sid
  filePath := "recordings/f" ++ toString i
  fileName := "f" ++ toString i
  fileSize := sz
  startTime := created
  endTime := none
  duration := none
  platform := "twitch"
  streamerId := "alice"
  streamerName := "alice"
  quality := "best"
  status := st
  isFavorite := fav
  createdAt := created
  errorMessage := none

/-- Convenience constructor for concrete test schedules under a count policy. -/
def mkCountSchedule (i maxCount : Nat) (pf def' : Bool) : Schedule where
  id := i
  platform := "twitch"
  streamerId := "alice"
  streamerName := "alice"
  quality := "best"
  enabled := true
  rotationEnabled := true
  rotationType := "count"
  maxAgeDays := 0
  maxCount := maxCount
  maxSizeGb := 0
  protectFavorites := pf
  deleteEmptyFiles := def'

/-- Is recording `r` an active (pending-or-recording) row of schedule `sid`?
The membership predicate behind `is_schedule_recording_active`
(`app/services/streamlink_service.py` lines 629-650): status in the list
`recording, pending` and matching `schedule_id`. -/
def isActiveFor (sid : Nat) (r : Recording) : Prop :=
  r.scheduleId = sid ∧ (r.status = RecStatus.recording ∨ r.status = RecStatus.pending)

instance (sid : Nat) (r : Recording) : Decidable (isActiveFor sid r) := by
  unfold isActiveFor
  infer_instance

/-- `is_schedule_recording_active(schedule_id)`
(`app/services/streamlink_service.py` lines 629-650): true iff some row of
the schedule has status recording or pending. -/
def isScheduleRecordingActive (recs : List Recording) (sid : Nat) : Bool :=
  recs.any (fun r => decide (isActiveFor sid r))

/-- Number of active rows a schedule currently has. -/
def countActive (recs : List Recording) (sid : Nat) : Nat :=
  (recs.filter (fun r => decide (isActiveFor sid r))).length

/-- The Recording row constructed by `_start_recording_with_uow`
(`app/services/scheduler_service_v2.py` lines 335-345): the row is created
with `status="recording"` directly; `file_size` takes the column default 0,
`created_at` the server default now, `end_time`/`duration` are unset.
`filename`/`output_path` come from the template engine, which is an external
collaborator here and is passed in as data. -/
def newRecordingRow (s : Schedule) (filename outputPath : String) (now : Int)
    (newId : Nat) : Recording where
  id := newId
  scheduleId := s.id
  filePath := outputPath
  fileName := filename
  fileSize := 0
  startTime := now
  endTime := none
  duration := none
  platform := s.platform
  streamerId := s.streamerId
  streamerName := s.streamerName
  quality := s.quality
  status := RecStatus.recording
  isFavorite := false
  createdAt := now
  errorMessage := none

/-- Database effect of one iteration of the `_monitor_stream` loop
(`app/services/scheduler_service_v2.py` lines 262-288): stop if the schedule
is gone or disabled; otherwise, only when no active recording exists for the
schedule is the platform consulted, and when it reports live a new row is
created via `_start_recording_with_uow`.  `live` is the platform answer
(`stream_info and stream_info.is_live`). -/
def monitorStreamIteration (recs : List Recording) (s : Option Schedule) (live : Bool)
    (filename outputPath : String) (now : Int) (newId : Nat) : List Recording :=
  match s with
  | none => recs
  | some s =>
      if !s.enabled then recs
      else if isScheduleRecordingActive recs s.id then recs
      else if live then recs ++ [newRecordingRow s filename outputPath now newId]
      else recs

/-- Database effect of `trigger_check_now`
(`app/services/scheduler_service_v2.py` lines 528-557): look the schedule up,
check liveness, and when live call `_start_recording_with_uow` — with no
check for an already-active recording of the schedule. -/
def triggerCheckNow (recs : List Recording) (s : Option Schedule) (live : Bool)
    (filename outputPath : String) (now : Int) (newId : Nat) : List Recording :=
  match s with
  | none => recs
  | some s =>
      if live then recs ++ [newRecordingRow s filename outputPath now newId]
      else recs

/-- The last `n` entries of a list: Python `l[-n:]` (the whole list when it
is shorter than `n`). -/
def lastN (n : Nat) (l : List String) : List String :=
  l.drop (l.length - n)

/-- Substring containment, used to state what the built error messages
carry. -/
def strContains (hay needle : String) : Prop :=
  needle.data <:+: hay.data

instance (hay needle : String) : Decidable (strContains hay needle) :=
  List.decidableInfix needle.data hay.data

/-- The error message built by the completion watcher for a failing exit
code (`app/services/streamlink_service.py` lines 394-410): the return code,
then the last 10 stderr lines (or a buffer-issue note when none were
captured), then the last 5 stdout lines when any exist. -/
def errorMsgOf (rc : Int) (stderrLines stdoutLines : List String) : String :=
  let base := "Recording failed with return code " ++ toString rc
  let base :=
    if stderrLines.isEmpty then
      base ++ "\nNo stderr output was captured (possible buffer issue)"
    else
      base ++ "\n--- Stderr Output ---\n" ++ String.intercalate "\n" (lastN 10 stderrLines)
  if stdoutLines.isEmpty then base
  else base ++ "\n--- Last Stdout Output ---\n" ++ String.intercalate "\n" (lastN 5 stdoutLines)

/-- Row update performed by the completion watcher `_monitor_recording` when
the subprocess exits on its own (`app/services/streamlink_service.py`
lines 376-424): stamp `end_time`; exit code 0 or 130 gives `completed`, any
other exit code gives `failed` with the built error message; then recompute
`duration` and refresh `file_size` when the output file exists. -/
def finishRecording (rc : Int) (stderrLines stdoutLines : List String) (now : Int)
    (fsSize : String → Option Nat) (outputPath : String) (r : Recording) : Recording :=
  let r := { r with endTime := some now }
  let r :=
    if rc = 0 then { r with status := RecStatus.completed }
    else if rc = 130 then { r with status := RecStatus.completed }
    else { r with status := RecStatus.failed,
                  errorMessage := some (errorMsgOf rc stderrLines stdoutLines) }
  let r := { r with duration := some (now - r.startTime) }
  if outputPath ≠ "" then
    match fsSize outputPath with
    | some sz => { r with fileSize := sz }
    | none => r
  else r

/-- The message the cancellation handler attaches
(`app/services/streamlink_service.py` lines 454-462): a cancellation note
plus the last 5 stderr and stdout lines when any were captured. -/
def cancelMsgOf (stderrLines stdoutLines : List String) : String :=
  let parts := ["Recording cancelled by user/scheduler"]
  let parts :=
    if stderrLines.isEmpty then parts
    else parts ++ ["--- Last Stderr Output (" ++ toString stderrLines.length ++ " lines) ---"]
           ++ lastN 5 stderrLines
  let parts :=
    if stdoutLines.isEmpty then parts
    else parts ++ ["--- Last Stdout Output (" ++ toString stdoutLines.length ++ " lines) ---"]
           ++ lastN 5 stdoutLines
  String.intercalate "\n" parts

/-- Row update performed by `_monitor_recording` when the watcher task is
cancelled (`app/services/streamlink_service.py` lines 430-473): the process
is terminated, the row is marked `completed`, `end_time` stamped, and — when
any output lines were captured — `error_message` is set to the cancellation
message; then `duration` and `file_size` are refreshed. -/
def cancelFinish (stderrLines stdoutLines : List String) (now : Int)
    (fsSize : String → Option Nat) (r : Recording) : Recording :=
  let r := { r with status := RecStatus.completed, endTime := some now }
  let r :=
    if stderrLines.isEmpty ∧ stdoutLines.isEmpty then r
    else { r with errorMessage := some (cancelMsgOf stderrLines stdoutLines) }
  let r := { r with duration := some (now - r.startTime) }
  if r.filePath ≠ "" then
    match fsSize r.filePath with
    | some sz => { r with fileSize := sz }
    | none => r
  else r

/-- Row update performed by `stop_recording`
(`app/services/streamlink_service.py` lines 209-268): the row is marked
`completed` (a requested stop is not a failure), `end_time` stamped,
`duration` recomputed and `file_size` refreshed; `error_message` is not
touched. -/
def stopRecordingUpdate (now : Int) (fsSize : String → Option Nat)
    (r : Recording) : Recording :=
  let r := { r with status := RecStatus.completed, endTime := some now }
  let r := { r with duration := some (now - r.startTime) }
  if r.filePath ≠ "" then
    match fsSize r.filePath with
    | some sz => { r with fileSize := sz }
    | none => r
  else r

/-- Per-row effect of the startup reconciliation block in `lifespan`
(`app/main.py` lines 69-159).  The three queried sets (status `recording`,
status `cancelled`, and status `completed` with `file_size == 0`) are
disjoint, so the batch acts on each row by exactly one of the three rules:
orphaned `recording` rows become `completed` with `end_time = now` and the
on-disk size when the file is readable; `cancelled` rows whose file exists
with nonzero size are promoted to `completed`; `completed` rows with stale
zero `file_size` get the on-disk size. -/
def reconcileStartup (now : Int) (fsSize : String → Option Nat) (r : Recording) : Recording :=
  if r.status = RecStatus.recording then
    let r := { r with status := RecStatus.completed, endTime := some now }
    if r.filePath ≠ "" then
      match fsSize r.filePath with
      | some sz => { r with fileSize := sz }
      | none => r
    else r
  else if r.status = RecStatus.cancelled then
    if r.filePath ≠ "" then
      match fsSize r.filePath with
      | some sz =>
          if sz > 0 then
            { r with status := RecStatus.completed, fileSize := sz,
                     endTime := if r.endTime = none then some now else r.endTime }
          else r
      | none => r
    else r
  else if r.status = RecStatus.completed ∧ r.fileSize = 0 then
    if r.filePath ≠ "" then
      match fsSize r.filePath with
      | some sz => if sz > 0 then { r with fileSize := sz } else r
      | none => r
    else r
  else r

/-- The whole startup reconciliation batch over the recordings table. -/
def startupRecovery (now : Int) (fsSize : String → Option Nat)
    (recs : List Recording) : List Recording :=
  recs.map (reconcileStartup now fsSize)

/-- Database effect of `delete_schedule`
(`app/services/scheduler_service_v2.py` lines 459-476 together with
`ScheduleRepository.delete`, `app/repositories/schedule_repository.py`
lines 55-61): when the schedule row exists it is removed with
`session.delete`, and the ORM relationship
`RecordingSchedule.recordings` is declared
`cascade="all, delete-orphan"` (`app/database/models.py` line 92), so every
Recording row of the schedule is removed with it (asserted by the
repository's own `test_cascade_delete`,
`tests/test_models.py` lines 235-267). -/
def cascadeDeleteSchedule (schedules : List Schedule) (recs : List Recording)
    (sid : Nat) : List Schedule × List Recording :=
  if schedules.any (fun s => decide (s.id = sid)) then
    (schedules.filter (fun s => decide (s.id ≠ sid)),
     recs.filter (fun r => decide (r.scheduleId ≠ sid)))
  else (schedules, recs)

theorem mem_removeById {recs dels : List Recording} {r : Recording} :
    r ∈ removeById recs dels ↔ r ∈ recs ∧ ∀ d ∈ dels, d.id ≠ r.id := by
  simp [removeById, List.mem_filter]

theorem removeById_nil (recs : List Recording) : removeById recs [] = recs := by
  simp [removeById]

theorem removeById_append (a b dels : List Recording) :
    removeById (a ++ b) dels = removeById a dels ++ removeById b dels := by
  simp [removeById, List.filter_append]

theorem filter_comm' (p q : Recording → Bool) (l : List Recording) :
    (l.filter p).filter q = (l.filter q).filter p := by
  induction l with
  | nil => rfl
  | cons a l ih =>
      by_cases hp : p a <;> by_cases hq : q a <;>
        simp [List.filter_cons, hp, hq, ih]

theorem activeStatusFilter_removeById (recs dels : List Recording) :
    activeStatusFilter (removeById recs dels) = removeById (activeStatusFilter recs) dels := by
  simp only [activeStatusFilter, removeById]
  exact filter_comm' _ _ recs

theorem protectFilter_nil (s : Schedule) : protectFilter s [] = [] := by
  by_cases h : s.protectFavorites <;> simp [protectFilter, h]

/-- Total file size of a recording list, the running total of the size
policy. -/
def recSizes (l : List Recording) : Nat := (l.map Recording.fileSize).sum

theorem recSizes_nil : recSizes [] = 0 := rfl

theorem recSizes_cons (a : Recording) (l : List Recording) :
    recSizes (a :: l) = a.fileSize + recSizes l := by
  simp [recSizes]

theorem recSizes_filter_le (p : Recording → Bool) (l : List Recording) :
    recSizes (l.filter p) ≤ recSizes l := by
  induction l with
  | nil => simp
  | cons a l ih =>
      by_cases hp : p a
      · simp [List.filter_cons, hp, recSizes_cons]
        omega
      · simp [List.filter_cons, hp, recSizes_cons]
        omega

theorem sizeDelete_append_of_le (maxB : Nat) :
    ∀ (a b : List Recording) (t : Nat), t + recSizes a ≤ maxB →
      sizeDelete t maxB (a ++ b) = sizeDelete (t + recSizes a) maxB b := by
  intro a
  induction a with
  | nil => intro b t h; simp [recSizes_nil]
  | cons x a ih =>
      intro b t h
      have hx : recSizes (x :: a) = x.fileSize + recSizes a := recSizes_cons x a
      have hno : ¬ t + x.fileSize > maxB := by omega
      simp only [List.cons_append, sizeDelete, if_neg hno]
      show sizeDelete (t + x.fileSize) maxB (a ++ b) = _
      rw [ih b (t + x.fileSize) (by omega)]
      congr 1
      omega

theorem sizeDelete_eq_nil_of_le (maxB t : Nat) (l : List Recording)
    (h : t + recSizes l ≤ maxB) : sizeDelete t maxB l = [] := by
  have hh := sizeDelete_append_of_le maxB l [] t h
  simpa [sizeDelete] using hh

theorem sizeDelete_decomp (maxB : Nat) :
    ∀ (l : List Recording) (t : Nat),
      ∃ pre, l = pre ++ sizeDelete t maxB l ∧ (t + recSizes pre ≤ maxB ∨ pre = []) := by
  intro l
  induction l with
  | nil => intro t; exact ⟨[], by simp [sizeDelete], Or.inr rfl⟩
  | cons a l ih =>
      intro t
      by_cases hbr : t + a.fileSize > maxB
      · exact ⟨[], by simp [sizeDelete, hbr], Or.inr rfl⟩
      · obtain ⟨pre, hpre, hsum⟩ := ih (t + a.fileSize)
        refine ⟨a :: pre, ?_, Or.inl ?_⟩
        · simpa [sizeDelete, hbr] using congrArg (a :: ·) hpre
        · have hx : recSizes (a :: pre) = a.fileSize + recSizes pre := recSizes_cons a pre
          rcases hsum with h | h
          · omega
          · subst h
            simp only [recSizes_nil] at hx ⊢
            omega

theorem sizeDelete_subset (maxB t : Nat) (l : List Recording) :
    ∀ r ∈ sizeDelete t maxB l, r ∈ l := by
  obtain ⟨pre, hpre, _⟩ := sizeDelete_decomp maxB l t
  intro r hr
  rw [hpre]
  exact List.mem_append_right _ hr

theorem not_removed_of_mem_delete_set {s : Schedule} {dl f : List Recording}
    {r : Recording} (hmem : r ∈ removeById f (protectFilter s dl)) (hr : r ∈ dl) :
    s.protectFavorites = true ∧ r.isFavorite = true := by
  have hkeep := (mem_removeById.mp hmem).2
  by_cases hpf : s.protectFavorites
  · refine ⟨hpf, ?_⟩
    by_cases hfav : r.isFavorite
    · exact hfav
    · exfalso
      have hin : r ∈ protectFilter s dl := by
        simp [protectFilter, hpf, List.mem_filter, hr, hfav]
      exact hkeep r hin rfl
  · exfalso
    have hin : r ∈ protectFilter s dl := by simp [protectFilter, hpf, hr]
    exact hkeep r hin rfl

theorem protectFilter_pos {s : Schedule} (h : s.protectFavorites = true)
    (l : List Recording) : protectFilter s l = l.filter (fun r => !r.isFavorite) := by
  simp [protectFilter, h]

theorem filter_not_fav_eq_nil {l : List Recording} (h : ∀ r ∈ l, r.isFavorite = true) :
    l.filter (fun r => !r.isFavorite) = [] := by
  rw [List.filter_eq_nil_iff]
  intro a ha
  simp [h a ha]

theorem mem_countDelete {n : Nat} {l : List Recording} {r : Recording}
    (h : r ∈ countDelete n l) : r ∈ l.drop n := by
  unfold countDelete at h
  split at h
  · exact h
  · exact absurd h (List.not_mem_nil r)

theorem mem_timeDelete {c : Int} {l : List Recording} {r : Recording} :
    r ∈ timeDelete c l ↔ r ∈ l ∧ r.createdAt < c := by
  simp [timeDelete, List.mem_filter]

theorem count_second_empty (s : Schedule) (f : List Recording) :
    protectFilter s (countDelete s.maxCount
      (removeById f (protectFilter s (countDelete s.maxCount f)))) = [] := by
  have hsplit : ∀ dels, removeById f dels =
      removeById (f.take s.maxCount) dels ++ removeById (f.drop s.maxCount) dels := by
    intro dels
    conv_lhs => rw [← List.take_append_drop s.maxCount f]
    exact removeById_append _ _ _
  by_cases hlen : f.length > s.maxCount
  · have hdl : countDelete s.maxCount f = f.drop s.maxCount := by
      simp [countDelete, hlen]
    rw [hdl, hsplit]
    have hAlen :
        (removeById (f.take s.maxCount) (protectFilter s (f.drop s.maxCount))).length
          ≤ s.maxCount := by
      have h1 := List.length_filter_le
        (fun r => decide (∀ d ∈ protectFilter s (f.drop s.maxCount), d.id ≠ r.id))
        (f.take s.maxCount)
      have h2 : (f.take s.maxCount).length ≤ s.maxCount := by
        rw [List.length_take]; omega
      exact le_trans h1 h2
    have hBprop : ∀ r ∈ removeById (f.drop s.maxCount) (protectFilter s (f.drop s.maxCount)),
        s.protectFavorites = true ∧ r.isFavorite = true := by
      intro r hr
      exact not_removed_of_mem_delete_set hr (mem_removeById.mp hr).1
    by_cases hpf : s.protectFavorites
    · have hsel : ∀ r ∈ countDelete s.maxCount
          (removeById (f.take s.maxCount) (protectFilter s (f.drop s.maxCount)) ++
           removeById (f.drop s.maxCount) (protectFilter s (f.drop s.maxCount))),
          r.isFavorite = true := by
        intro r hr
        have hr' := mem_countDelete hr
        rw [List.drop_append_eq_append_drop, List.drop_eq_nil_of_le hAlen,
          List.nil_append] at hr'
        exact (hBprop r (List.mem_of_mem_drop hr')).2
      rw [protectFilter_pos hpf]
      exact filter_not_fav_eq_nil hsel
    · have hBnil : removeById (f.drop s.maxCount) (protectFilter s (f.drop s.maxCount)) = [] := by
        rw [List.eq_nil_iff_forall_not_mem]
        intro r hr
        exact hpf (hBprop r hr).1
      rw [hBnil, List.append_nil]
      have hno : ¬ (removeById (f.take s.maxCount)
          (protectFilter s (f.drop s.maxCount))).length > s.maxCount := by omega
      rw [countDelete, if_neg hno]
      exact protectFilter_nil s
  · have hdl : countDelete s.maxCount f = [] := by simp [countDelete, hlen]
    rw [hdl, protectFilter_nil, removeById_nil, hdl]
    exact protectFilter_nil s

theorem time_second_empty (s : Schedule) (c : Int) (f : List Recording) :
    protectFilter s (timeDelete c (removeById f (protectFilter s (timeDelete c f)))) = [] := by
  have key : ∀ r ∈ removeById f (protectFilter s (timeDelete c f)), r.createdAt < c →
      s.protectFavorites = true ∧ r.isFavorite = true := by
    intro r hr hlt
    refine not_removed_of_mem_delete_set hr ?_
    exact mem_timeDelete.mpr ⟨(mem_removeById.mp hr).1, hlt⟩
  by_cases hpf : s.protectFavorites
  · rw [protectFilter_pos hpf]
    refine filter_not_fav_eq_nil ?_
    intro r hr
    have hr2 := mem_timeDelete.mp hr
    exact (key r hr2.1 hr2.2).2
  · have hnil : timeDelete c (removeById f (protectFilter s (timeDelete c f))) = [] := by
      rw [timeDelete, List.filter_eq_nil_iff]
      intro r hr
      simp only [decide_eq_true_eq, not_lt]
      by_contra hcon
      push_neg at hcon
      exact hpf (key r hr hcon).1
    rw [hnil]
    exact protectFilter_nil s

theorem size_second_empty (s : Schedule) (maxB : Nat) (f : List Recording) :
    protectFilter s (sizeDelete 0 maxB
      (removeById f (protectFilter s (sizeDelete 0 maxB f)))) = [] := by
  obtain ⟨pre, hpre, hsum⟩ := sizeDelete_decomp maxB f 0
  have hsplit : ∀ dels, removeById f dels =
      removeById pre dels ++ removeById (sizeDelete 0 maxB f) dels := by
    intro dels
    conv_lhs => rw [hpre]
    exact removeById_append _ _ _
  have hApre : recSizes (removeById pre (protectFilter s (sizeDelete 0 maxB f)))
      ≤ recSizes pre := recSizes_filter_le _ pre
  have hBprop : ∀ r ∈ removeById (sizeDelete 0 maxB f)
      (protectFilter s (sizeDelete 0 maxB f)),
      s.protectFavorites = true ∧ r.isFavorite = true := by
    intro r hr
    exact not_removed_of_mem_delete_set hr (mem_removeById.mp hr).1
  rw [hsplit]
  by_cases hpf : s.protectFavorites
  · have hfav : ∀ r ∈ sizeDelete 0 maxB
        (removeById pre (protectFilter s (sizeDelete 0 maxB f)) ++
         removeById (sizeDelete 0 maxB f) (protectFilter s (sizeDelete 0 maxB f))),
        r.isFavorite = true := by
      intro r hr
      rcases hsum with hle | hnil
      · have h0 : 0 + recSizes (removeById pre (protectFilter s (sizeDelete 0 maxB f)))
            ≤ maxB := by omega
        rw [sizeDelete_append_of_le maxB _ _ 0 h0] at hr
        exact (hBprop r (sizeDelete_subset _ _ _ r hr)).2
      · have hAnil : removeById pre (protectFilter s (sizeDelete 0 maxB f)) = [] := by
          rw [hnil]; rfl
        rw [hAnil, List.nil_append] at hr
        exact (hBprop r (sizeDelete_subset _ _ _ r hr)).2
    rw [protectFilter_pos hpf]
    exact filter_not_fav_eq_nil hfav
  · have hBnil : removeById (sizeDelete 0 maxB f)
        (protectFilter s (sizeDelete 0 maxB f)) = [] := by
      rw [List.eq_nil_iff_forall_not_mem]
      intro r hr
      exact hpf (hBprop r hr).1
    rw [hBnil, List.append_nil]
    rcases hsum with hle | hnil
    · have hz : sizeDelete 0 maxB (removeById pre (protectFilter s (sizeDelete 0 maxB f))) = [] :=
        sizeDelete_eq_nil_of_le maxB 0 _ (by omega)
      rw [hz]
      exact protectFilter_nil s
    · have hAnil : removeById pre (protectFilter s (sizeDelete 0 maxB f)) = [] := by
        rw [hnil]; rfl
      rw [hAnil]
      simpa [sizeDelete] using protectFilter_nil s

theorem filesToDelete_count {s : Schedule} (h : s.rotationType = "count")
    (now : Int) (l : List Recording) :
    filesToDelete s now l = countDelete s.maxCount l := by
  simp [filesToDelete, h]

theorem filesToDelete_time {s : Schedule} (hc : s.rotationType ≠ "count")
    (ht : s.rotationType = "time") (now : Int) (l : List Recording) :
    filesToDelete s now l = timeDelete (now - (s.maxAgeDays * secondsPerDay : Nat)) l := by
  simp [filesToDelete, hc, ht]

theorem filesToDelete_size {s : Schedule} (hc : s.rotationType ≠ "count")
    (ht : s.rotationType ≠ "time") (hz : s.rotationType = "size")
    (now : Int) (l : List Recording) :
    filesToDelete s now l = sizeDelete 0 (s.maxSizeGb * 1024 * 1024 * 1024) l := by
  simp [filesToDelete, hc, ht, hz]

theorem filesToDelete_other {s : Schedule} (hc : s.rotationType ≠ "count")
    (ht : s.rotationType ≠ "time") (hz : s.rotationType ≠ "size")
    (now : Int) (l : List Recording) :
    filesToDelete s now l = [] := by
  simp [filesToDelete, hc, ht, hz]

theorem second_delete_set_empty (s : Schedule) (now : Int) (f : List Recording) :
    protectFilter s (filesToDelete s now
      (removeById f (protectFilter s (filesToDelete s now f)))) = [] := by
  by_cases hc : s.rotationType = "count"
  · simp only [filesToDelete_count hc]
    exact count_second_empty s f
  · by_cases ht : s.rotationType = "time"
    · simp only [filesToDelete_time hc ht]
      exact time_second_empty s _ f
    · by_cases hz : s.rotationType = "size"
      · simp only [filesToDelete_size hc ht hz]
        exact size_second_empty s _ f
      · simp only [filesToDelete_other hc ht hz]
        exact protectFilter_nil s

/-- C9: the rotation sweep is idempotent: with no new recordings and the same
current time, the delete set a second `_apply_rotation_policy` pass computes
over the swept recording set is empty, so the second pass deletes nothing and
leaves the recording set unchanged — for every schedule policy (count, time
and size, with or without `protect_favorites`, and any other
`rotation_type`). -/
theorem rotation_sweep_idempotent (s : Schedule) (now : Int) (recs : List Recording) :
    rotationCandidates s now (sweepOnce s now recs) = [] ∧
    sweepOnce s now (sweepOnce s now recs) = sweepOnce s now recs := by
  have hmain : rotationCandidates s now (sweepOnce s now recs) = [] := by
    by_cases hF : (activeStatusFilter recs).isEmpty
    · have h1 : rotationCandidates s now recs = [] := by
        unfold rotationCandidates
        simp [hF]
      unfold sweepOnce
      rw [h1, removeById_nil]
      exact h1
    · have h1 : rotationCandidates s now recs =
          protectFilter s (filesToDelete s now (activeStatusFilter recs)) := by
        unfold rotationCandidates
        simp [hF]
      unfold sweepOnce
      rw [h1]
      unfold rotationCandidates
      rw [activeStatusFilter_removeById]
      by_cases hF2 : (removeById (activeStatusFilter recs)
          (protectFilter s (filesToDelete s now (activeStatusFilter recs)))).isEmpty
      · simp [hF2]
      · simp only [hF2, Bool.false_eq_true, if_false]
        exact second_delete_set_empty s now (activeStatusFilter recs)
  refine ⟨hmain, ?_⟩
  conv_lhs => rw [sweepOnce, hmain, removeById_nil]

/-- C5: under `rotation_type = count`, over a history of non-active,
non-favorite recordings (ordered newest first, with the distinct row ids the
database guarantees), the sweep's delete set is exactly the recordings after
the first `max_count` — in particular empty when at most `max_count` rows
exist — and the sweep keeps exactly the first `max_count` recordings. -/
theorem count_rotation_deletes_exactly_tail (s : Schedule) (now : Int)
    (recs : List Recording) (hc : s.rotationType = "count")
    (hstat : ∀ r ∈ recs, r.status ≠ RecStatus.recording ∧ r.status ≠ RecStatus.pending)
    (hfav : ∀ r ∈ recs, r.isFavorite = false)
    (hids : (recs.map Recording.id).Nodup) :
    rotationCandidates s now recs = recs.drop s.maxCount ∧
    sweepOnce s now recs = recs.take s.maxCount := by
  have hF : activeStatusFilter recs = recs := by
    rw [activeStatusFilter, List.filter_eq_self]
    intro r hr
    simp [(hstat r hr).1]
  have hcand : rotationCandidates s now recs = recs.drop s.maxCount := by
    unfold rotationCandidates
    rw [hF]
    by_cases hnil : recs.isEmpty
    · have : recs = [] := List.isEmpty_eq_true.mp hnil
      simp [hnil, this]
    · rw [if_neg hnil, filesToDelete_count hc]
      by_cases hlen : recs.length > s.maxCount
      · rw [countDelete, if_pos hlen]
        by_cases hpf : s.protectFavorites
        · rw [protectFilter_pos hpf, List.filter_eq_self]
          intro r hr
          simp [hfav r (List.mem_of_mem_drop hr)]
        · simp [protectFilter, hpf]
      · rw [countDelete, if_neg hlen, List.drop_eq_nil_of_le (by omega)]
        exact protectFilter_nil s
  refine ⟨hcand, ?_⟩
  unfold sweepOnce
  rw [hcand]
  by_cases hlen : recs.length ≤ s.maxCount
  · rw [List.drop_eq_nil_of_le hlen, removeById_nil, List.take_of_length_le hlen]
  · have hmap : (recs.take s.maxCount).map Recording.id ++
        (recs.drop s.maxCount).map Recording.id = recs.map Recording.id := by
      rw [← List.map_append, List.take_append_drop]
    rw [← hmap] at hids
    have hdisj := (List.nodup_append.mp hids).2.2
    have hsplit : ∀ dels, removeById recs dels =
        removeById (recs.take s.maxCount) dels ++
        removeById (recs.drop s.maxCount) dels := by
      intro dels
      conv_lhs => rw [← List.take_append_drop s.maxCount recs]
      exact removeById_append _ _ _
    rw [hsplit]
    have htake : removeById (recs.take s.maxCount) (recs.drop s.maxCount) =
        recs.take s.maxCount := by
      rw [removeById, List.filter_eq_self]
      intro r hr
      simp only [decide_eq_true_eq]
      intro d hd hid
      exact hdisj (List.mem_map_of_mem Recording.id hr)
        (hid ▸ List.mem_map_of_mem Recording.id hd)
    have hdrop : removeById (recs.drop s.maxCount) (recs.drop s.maxCount) = [] := by
      rw [removeById, List.filter_eq_nil_iff]
      intro r hr
      simp only [decide_eq_true_eq, not_forall]
      exact ⟨r, hr, by simp⟩
    rw [htake, hdrop, List.append_nil]

/-- C5 witness: a count policy with `max_count = 3` over 5 non-favorite
completed recordings (newest first) deletes exactly the 2 oldest and keeps
the 3 newest. -/
theorem count_rotation_deletes_exactly_tail_witness :
    rotationCandidates (mkCountSchedule 1 3 true true) 0
        [mkRec 1 1 5 50 RecStatus.completed false, mkRec 2 1 5 40 RecStatus.completed false,
         mkRec 3 1 5 30 RecStatus.completed false, mkRec 4 1 5 20 RecStatus.completed false,
         mkRec 5 1 5 10 RecStatus.completed false] =
      [mkRec 4 1 5 20 RecStatus.completed false, mkRec 5 1 5 10 RecStatus.completed false] ∧
    sweepOnce (mkCountSchedule 1 3 true true) 0
        [mkRec 1 1 5 50 RecStatus.completed false, mkRec 2 1 5 40 RecStatus.completed false,
         mkRec 3 1 5 30 RecStatus.completed false, mkRec 4 1 5 20 RecStatus.completed false,
         mkRec 5 1 5 10 RecStatus.completed false] =
      [mkRec 1 1 5 50 RecStatus.completed false, mkRec 2 1 5 40 RecStatus.completed false,
       mkRec 3 1 5 30 RecStatus.completed false] := by
  have h := count_rotation_deletes_exactly_tail (mkCountSchedule 1 3 true true) 0
    [mkRec 1 1 5 50 RecStatus.completed false, mkRec 2 1 5 40 RecStatus.completed false,
     mkRec 3 1 5 30 RecStatus.completed false, mkRec 4 1 5 20 RecStatus.completed false,
     mkRec 5 1 5 10 RecStatus.completed false]
    (by decide) (by decide) (by decide) (by decide)
  exact ⟨h.1.trans (by decide), h.2.trans (by decide)⟩

/-- C6: when `protect_favorites` is enabled, no favorite recording is ever in
the rotation delete set, for every rotation type and every input history. -/
theorem protect_favorites_never_deleted (s : Schedule) (now : Int)
    (recs : List Recording) (hpf : s.protectFavorites = true) :
    ∀ r ∈ rotationCandidates s now recs, r.isFavorite = false := by
  intro r hr
  unfold rotationCandidates at hr
  by_cases hF : (activeStatusFilter recs).isEmpty
  · simp [hF] at hr
  · rw [if_neg hF, protectFilter_pos hpf, List.mem_filter] at hr
    simpa using hr.2

/-- C6 witness: `max_count = 3`, 5 completed recordings whose 2 oldest are
favorite, `protect_favorites = true`: the delete set is empty; and in a
variant where only one of the 2 oldest is favorite, the favorite stays out
of the delete set while the non-favorite old recording is in it (shown
non-favorite by applying the protection theorem to it). -/
theorem protect_favorites_never_deleted_witness :
    rotationCandidates (mkCountSchedule 1 3 true true) 0
        [mkRec 1 1 5 50 RecStatus.completed false, mkRec 2 1 5 40 RecStatus.completed false,
         mkRec 3 1 5 30 RecStatus.completed false, mkRec 4 1 5 20 RecStatus.completed true,
         mkRec 5 1 5 10 RecStatus.completed true] = [] ∧
    mkRec 5 1 5 10 RecStatus.completed false ∈
      rotationCandidates (mkCountSchedule 1 3 true true) 0
        [mkRec 1 1 5 50 RecStatus.completed false, mkRec 2 1 5 40 RecStatus.completed false,
         mkRec 3 1 5 30 RecStatus.completed false, mkRec 4 1 5 20 RecStatus.completed true,
         mkRec 5 1 5 10 RecStatus.completed false] ∧
    (mkRec 5 1 5 10 RecStatus.completed false).isFavorite = false ∧
    mkRec 4 1 5 20 RecStatus.completed true ∉
      rotationCandidates (mkCountSchedule 1 3 true true) 0
        [mkRec 1 1 5 50 RecStatus.completed false, mkRec 2 1 5 40 RecStatus.completed false,
         mkRec 3 1 5 30 RecStatus.completed false, mkRec 4 1 5 20 RecStatus.completed true,
         mkRec 5 1 5 10 RecStatus.completed false] := by
  refine ⟨by decide, ?_, ?_, by decide⟩
  · decide
  · exact protect_favorites_never_deleted (mkCountSchedule 1 3 true true) 0
      [mkRec 1 1 5 50 RecStatus.completed false, mkRec 2 1 5 40 RecStatus.completed false,
       mkRec 3 1 5 30 RecStatus.completed false, mkRec 4 1 5 20 RecStatus.completed true,
       mkRec 5 1 5 10 RecStatus.completed false] (by decide)
      (mkRec 5 1 5 10 RecStatus.completed false) (by decide)

/-- C7 counterexample: a schedule with `delete_empty_files = true` under a
count policy with `max_count = 3`, and a single non-active completed
recording with `file_size = 0`: the claim puts that recording in the delete
set, but the sweep's delete set is empty — `_apply_rotation_policy` never
consults `delete_empty_files`. -/
theorem delete_empty_files_counterexample :
    (mkCountSchedule 1 3 true true).deleteEmptyFiles = true ∧
    (mkRec 7 1 0 10 RecStatus.completed false).fileSize = 0 ∧
    (mkRec 7 1 0 10 RecStatus.completed false).status ≠ RecStatus.recording ∧
    (mkRec 7 1 0 10 RecStatus.completed false).status ≠ RecStatus.pending ∧
    rotationCandidates (mkCountSchedule 1 3 true true) 0
      [mkRec 7 1 0 10 RecStatus.completed false] = [] ∧
    mkRec 7 1 0 10 RecStatus.completed false ∉
      rotationCandidates (mkCountSchedule 1 3 true true) 0
        [mkRec 7 1 0 10 RecStatus.completed false] := by
  decide

/-- C7 amended: `delete_empty_files` has no effect on the rotation sweep —
the delete set is determined entirely by the `rotation_type` rule and
`protect_favorites`; an empty, non-active recording is deleted only when the
policy rule itself selects it. -/
theorem rotation_ignores_delete_empty_files (s : Schedule) (now : Int)
    (recs : List Recording) (b : Bool) :
    rotationCandidates { s with deleteEmptyFiles := b } now recs =
      rotationCandidates s now recs := rfl

theorem countActive_append (a b : List Recording) (sid : Nat) :
    countActive (a ++ b) sid = countActive a sid + countActive b sid := by
  simp [countActive, List.filter_append]

theorem countActive_eq_zero {recs : List Recording} {sid : Nat}
    (h : isScheduleRecordingActive recs sid = false) : countActive recs sid = 0 := by
  rw [countActive, List.length_eq_zero, List.filter_eq_nil_iff]
  intro r hr
  exact List.any_eq_false.mp h r hr

/-- C1 counterexample: with one recording already active
(status `recording`) for schedule 1, `trigger_check_now` on a live stream
creates a second one — it never checks for an active recording, so the
one-active-recording-per-target invariant is not preserved by every
capture-starting operation. -/
theorem trigger_check_now_second_active_counterexample :
    countActive [mkRec 1 1 0 0 RecStatus.recording false] 1 = 1 ∧
    countActive (triggerCheckNow [mkRec 1 1 0 0 RecStatus.recording false]
      (some (mkCountSchedule 1 3 true true)) true "f2" "recordings/f2" 5 2) 1 = 2 := by
  decide

/-- C1 amended: the poll iteration of `_monitor_stream` does check for an
active recording before starting a capture and therefore preserves the
at-most-one-active-recording-per-target invariant; `trigger_check_now`
performs no such check and can create a second active recording. -/
theorem monitor_iteration_preserves_single_active (recs : List Recording)
    (s : Option Schedule) (live : Bool) (fn fp : String) (now : Int) (newId : Nat)
    (hinv : ∀ sid, countActive recs sid ≤ 1) :
    ∀ sid, countActive (monitorStreamIteration recs s live fn fp now newId) sid ≤ 1 := by
  intro sid
  match s with
  | none => exact hinv sid
  | some s =>
    simp only [monitorStreamIteration]
    by_cases hen : !s.enabled
    · rw [if_pos hen]; exact hinv sid
    · rw [if_neg hen]
      by_cases hact : isScheduleRecordingActive recs s.id
      · rw [if_pos hact]; exact hinv sid
      · rw [if_neg hact]
        by_cases hlive : live = true
        · rw [if_pos hlive, countActive_append]
          by_cases hsid : sid = s.id
          · have hfalse : isScheduleRecordingActive recs s.id = false := by
              simpa using hact
            have h0 : countActive recs sid = 0 := by
              rw [hsid]
              exact countActive_eq_zero hfalse
            have h1 : countActive [newRecordingRow s fn fp now newId] sid ≤ 1 :=
              le_trans (List.length_filter_le _ _) (by simp)
            omega
          · have h1 : countActive [newRecordingRow s fn fp now newId] sid = 0 := by
              rw [countActive, List.length_eq_zero, List.filter_eq_nil_iff]
              intro r hr
              rw [List.mem_singleton] at hr
              subst hr
              simp only [decide_eq_true_eq, isActiveFor, not_and]
              intro hcon
              exact absurd hcon.symm hsid
            rw [h1]
            have := hinv sid
            omega
        · rw [if_neg hlive]; exact hinv sid

/-- C1 amended witness: one monitor iteration from an empty recording table
leaves schedule 1 with at most one active recording. -/
theorem monitor_iteration_preserves_single_active_witness :
    countActive (monitorStreamIteration [] (some (mkCountSchedule 1 3 true true)) true
      "f" "recordings/f" 0 1) 1 ≤ 1 :=
  monitor_iteration_preserves_single_active [] (some (mkCountSchedule 1 3 true true)) true
    "f" "recordings/f" 0 1 (by intro sid; simp [countActive]) 1

/-- C2 counterexample: when the monitor observes a live stream with no
active recording, the row it creates has status `recording`, not `pending` —
`_start_recording_with_uow` writes `status="recording"` directly and no
pending-to-recording transition exists. -/
theorem no_pending_status_counterexample :
    monitorStreamIteration [] (some (mkCountSchedule 1 3 true true)) true
        "f" "recordings/f" 0 1
      = [newRecordingRow (mkCountSchedule 1 3 true true) "f" "recordings/f" 0 1] ∧
    (newRecordingRow (mkCountSchedule 1 3 true true) "f" "recordings/f" 0 1).status
      = RecStatus.recording ∧
    (newRecordingRow (mkCountSchedule 1 3 true true) "f" "recordings/f" 0 1).status
      ≠ RecStatus.pending := by
  decide

/-- C2 amended: when the monitor observes a live stream for an enabled
schedule with no active recording, it appends exactly one new Recording row,
and that row is created with status `recording` (before and regardless of
whether the capture subprocess starts successfully); no `pending` state is
used. -/
theorem monitor_creates_row_with_recording_status (recs : List Recording) (s : Schedule)
    (fn fp : String) (now : Int) (newId : Nat) (hen : s.enabled = true)
    (hact : isScheduleRecordingActive recs s.id = false) :
    monitorStreamIteration recs (some s) true fn fp now newId =
      recs ++ [newRecordingRow s fn fp now newId] ∧
    (newRecordingRow s fn fp now newId).status = RecStatus.recording := by
  refine ⟨?_, rfl⟩
  unfold monitorStreamIteration
  simp [hen, hact]

/-- C2 amended witness: concrete instance of the monitor creating the
`recording`-status row. -/
theorem monitor_creates_row_with_recording_status_witness :
    monitorStreamIteration [] (some (mkCountSchedule 1 3 true true)) true
        "f" "recordings/f" 0 1
      = [] ++ [newRecordingRow (mkCountSchedule 1 3 true true) "f" "recordings/f" 0 1] ∧
    (newRecordingRow (mkCountSchedule 1 3 true true) "f" "recordings/f" 0 1).status
      = RecStatus.recording :=
  monitor_creates_row_with_recording_status [] (mkCountSchedule 1 3 true true)
    "f" "recordings/f" 0 1 (by decide) (by decide)

theorem strContains_suffix (a b : String) : strContains (a ++ b) b :=
  ⟨a.data, [], by simp⟩

theorem strContains_appendl {a : String} (b : String) (c : String)
    (h : strContains a b) : strContains (a ++ c) b := by
  obtain ⟨s, t, hst⟩ := h
  refine ⟨s, t ++ c.data, ?_⟩
  rw [String.data_append, ← hst]
  simp

theorem errorMsgOf_contains_code (rc : Int) (st sout : List String) :
    strContains (errorMsgOf rc st sout) (toString rc) := by
  unfold errorMsgOf
  have hbase : strContains ("Recording failed with return code " ++ toString rc)
      (toString rc) := strContains_suffix _ _
  cases hst : st.isEmpty <;> cases hso : sout.isEmpty <;>
    simp only [hst, hso, Bool.false_eq_true, if_false, if_true] <;>
    first
      | exact strContains_appendl _ _ hbase
      | exact strContains_appendl _ _ (strContains_appendl _ _ hbase)
      | exact strContains_appendl _ _ (strContains_appendl _ _ (strContains_appendl _ _ hbase))
      | exact strContains_appendl _ _ (strContains_appendl _ _
          (strContains_appendl _ _ (strContains_appendl _ _ hbase)))

theorem errorMsgOf_contains_stderr (rc : Int) (st sout : List String)
    (h : st.isEmpty = false) :
    strContains (errorMsgOf rc st sout)
      (String.intercalate "\n" (lastN 10 st)) := by
  unfold errorMsgOf
  cases hso : sout.isEmpty <;>
    simp only [h, hso, Bool.false_eq_true, if_false, if_true] <;>
    first
      | exact strContains_suffix _ _
      | exact strContains_appendl _ _ (strContains_suffix _ _)
      | exact strContains_appendl _ _ (strContains_appendl _ _ (strContains_suffix _ _))

theorem errorMsgOf_ne_empty (rc : Int) (st sout : List String) :
    errorMsgOf rc st sout ≠ "" := by
  intro hcon
  unfold errorMsgOf at hcon
  cases hst : st.isEmpty <;> cases hso : sout.isEmpty <;>
    rw [hst, hso] at hcon <;>
    simp only [Bool.false_eq_true, if_false, if_true] at hcon <;>
    · have hd := congrArg String.data hcon
      simp [String.data_append] at hd

theorem finishRecording_status (rc : Int) (st sout : List String) (now : Int)
    (fs : String → Option Nat) (out : String) (r : Recording) :
    (finishRecording rc st sout now fs out r).status =
      if rc = 0 ∨ rc = 130 then RecStatus.completed else RecStatus.failed := by
  unfold finishRecording
  by_cases hout : out ≠ ""
  · simp only [if_pos hout]
    cases fs out <;> by_cases h0 : rc = 0 <;> by_cases h130 : rc = 130 <;>
      simp [h0, h130]
  · simp only [if_neg hout]
    by_cases h0 : rc = 0 <;> by_cases h130 : rc = 130 <;> simp [h0, h130]

theorem finishRecording_errorMessage (rc : Int) (st sout : List String) (now : Int)
    (fs : String → Option Nat) (out : String) (r : Recording) :
    (finishRecording rc st sout now fs out r).errorMessage =
      if rc = 0 ∨ rc = 130 then r.errorMessage else some (errorMsgOf rc st sout) := by
  unfold finishRecording
  by_cases hout : out ≠ ""
  · simp only [if_pos hout]
    cases fs out <;> by_cases h0 : rc = 0 <;> by_cases h130 : rc = 130 <;>
      simp [h0, h130]
  · simp only [if_neg hout]
    by_cases h0 : rc = 0 <;> by_cases h130 : rc = 130 <;> simp [h0, h130]

/-- C3: classification of the capture subprocess exit by the completion
watcher: exit code 0 and the interrupt code 130 both give `completed`; every
other exit code gives `failed` with an `error_message` that is exactly the
built diagnostic — which contains the exit code, and, when stderr lines were
captured, the joined last 10 stderr lines. -/
theorem watcher_exit_code_classification (rc : Int) (st sout : List String)
    (now : Int) (fs : String → Option Nat) (out : String) (r : Recording) :
    ((rc = 0 ∨ rc = 130) →
      (finishRecording rc st sout now fs out r).status = RecStatus.completed) ∧
    (rc ≠ 0 → rc ≠ 130 →
      (finishRecording rc st sout now fs out r).status = RecStatus.failed ∧
      (finishRecording rc st sout now fs out r).errorMessage =
        some (errorMsgOf rc st sout) ∧
      strContains (errorMsgOf rc st sout) (toString rc) ∧
      (¬ st.isEmpty → strContains (errorMsgOf rc st sout)
        (String.intercalate "\n" (lastN 10 st)))) := by
  refine ⟨?_, ?_⟩
  · intro h
    rw [finishRecording_status, if_pos h]
  · intro h0 h130
    refine ⟨?_, ?_, errorMsgOf_contains_code rc st sout,
      fun hne => errorMsgOf_contains_stderr rc st sout (by simpa using hne)⟩
    · rw [finishRecording_status, if_neg (by tauto)]
    · rw [finishRecording_errorMessage, if_neg (by tauto)]

/-- C3 witness: the spec scenario — exit code 1 with stderr line
"stream ended" gives status `failed` and an error message that contains
"stream ended" and "1". -/
theorem watcher_exit_code_classification_witness :
    (finishRecording 1 ["stream ended"] [] 120 (fun _ => none) "recordings/f1"
      (mkRec 1 1 0 0 RecStatus.recording false)).status = RecStatus.failed ∧
    (finishRecording 1 ["stream ended"] [] 120 (fun _ => none) "recordings/f1"
      (mkRec 1 1 0 0 RecStatus.recording false)).errorMessage =
      some (errorMsgOf 1 ["stream ended"] []) ∧
    strContains (errorMsgOf 1 ["stream ended"] []) "stream ended" ∧
    strContains (errorMsgOf 1 ["stream ended"] []) "1" := by
  have h := (watcher_exit_code_classification 1 ["stream ended"] [] 120
    (fun _ => none) "recordings/f1" (mkRec 1 1 0 0 RecStatus.recording false)).2
    (by decide) (by decide)
  exact ⟨h.1, h.2.1, by decide, by decide⟩

theorem cancelFinish_status (st sout : List String) (now : Int)
    (fs : String → Option Nat) (r : Recording) :
    (cancelFinish st sout now fs r).status = RecStatus.completed := by
  obtain ⟨i, sid, fp, fn, sz, stt, et, du, pl, sid2, sn, q, stat, fav, ca, em⟩ := r
  unfold cancelFinish
  dsimp only
  split_ifs <;> first
    | rfl
    | (cases fs fp <;> rfl)

theorem stopRecordingUpdate_status (now : Int) (fs : String → Option Nat)
    (r : Recording) :
    (stopRecordingUpdate now fs r).status = RecStatus.completed ∧
    (stopRecordingUpdate now fs r).errorMessage = r.errorMessage := by
  obtain ⟨i, sid, fp, fn, sz, stt, et, du, pl, sid2, sn, q, stat, fav, ca, em⟩ := r
  unfold stopRecordingUpdate
  dsimp only
  split_ifs <;> first
    | exact ⟨rfl, rfl⟩
    | (cases fs fp <;> exact ⟨rfl, rfl⟩)

/-- C4 counterexample: a recording whose watcher task is cancelled while
output lines were captured ends with status `completed` (not `failed`) and a
non-empty `error_message` — so a non-failed Recording can carry a non-empty
`error_message`, refuting the only-if direction of the invariant. -/
theorem completed_with_error_message_counterexample :
    (cancelFinish ["connection lost"] [] 100 (fun _ => none)
      (mkRec 1 1 0 0 RecStatus.recording false)).status = RecStatus.completed ∧
    (cancelFinish ["connection lost"] [] 100 (fun _ => none)
      (mkRec 1 1 0 0 RecStatus.recording false)).status ≠ RecStatus.failed ∧
    (cancelFinish ["connection lost"] [] 100 (fun _ => none)
      (mkRec 1 1 0 0 RecStatus.recording false)).errorMessage ≠ none ∧
    (cancelFinish ["connection lost"] [] 100 (fun _ => none)
      (mkRec 1 1 0 0 RecStatus.recording false)).errorMessage ≠ some "" := by
  decide

/-- C4 amended: after the completion watcher's normal exit path a `failed`
status always comes with a non-empty `error_message`, and a completed exit
(code 0 or 130) leaves `error_message` untouched; `stop_recording` likewise
marks the row `completed` without touching `error_message`.  The converse of
the invariant fails: the cancellation path marks the row `completed` and may
attach a non-empty `error_message` (see the counterexample), and
`error_message` is not a persisted column of the Recording model. -/
theorem failed_iff_error_message_amended (rc : Int) (st sout : List String)
    (now : Int) (fs : String → Option Nat) (out : String) (r : Recording) :
    ((finishRecording rc st sout now fs out r).status = RecStatus.failed →
      (finishRecording rc st sout now fs out r).errorMessage =
        some (errorMsgOf rc st sout) ∧ errorMsgOf rc st sout ≠ "") ∧
    ((rc = 0 ∨ rc = 130) →
      (finishRecording rc st sout now fs out r).errorMessage = r.errorMessage) ∧
    (cancelFinish st sout now fs r).status = RecStatus.completed ∧
    (stopRecordingUpdate now fs r).status = RecStatus.completed ∧
    (stopRecordingUpdate now fs r).errorMessage = r.errorMessage := by
  refine ⟨?_, ?_, cancelFinish_status st sout now fs r,
    (stopRecordingUpdate_status now fs r).1, (stopRecordingUpdate_status now fs r).2⟩
  · intro hfail
    rw [finishRecording_status] at hfail
    by_cases h : rc = 0 ∨ rc = 130
    · rw [if_pos h] at hfail
      exact absurd hfail (by decide)
    · exact ⟨by rw [finishRecording_errorMessage, if_neg h],
        errorMsgOf_ne_empty rc st sout⟩
  · intro h
    rw [finishRecording_errorMessage, if_pos h]

/-- C4 amended witness: concrete failing exit (code 2) carries the non-empty
built message, and concrete stop and cancellation paths both yield
`completed`. -/
theorem failed_iff_error_message_amended_witness :
    (finishRecording 2 ["boom"] [] 50 (fun _ => none) "recordings/f1"
      (mkRec 1 1 0 0 RecStatus.recording false)).status = RecStatus.failed ∧
    (finishRecording 2 ["boom"] [] 50 (fun _ => none) "recordings/f1"
      (mkRec 1 1 0 0 RecStatus.recording false)).errorMessage =
        some (errorMsgOf 2 ["boom"] []) ∧
    errorMsgOf 2 ["boom"] [] ≠ "" ∧
    (cancelFinish ["boom"] [] 50 (fun _ => none)
      (mkRec 1 1 0 0 RecStatus.recording false)).status = RecStatus.completed ∧
    (stopRecordingUpdate 50 (fun _ => none)
      (mkRec 1 1 0 0 RecStatus.recording false)).status = RecStatus.completed := by
  have h := failed_iff_error_message_amended 2 ["boom"] [] 50 (fun _ => none)
    "recordings/f1" (mkRec 1 1 0 0 RecStatus.recording false)
  exact ⟨by decide, (h.1 (by decide)).1, (h.1 (by decide)).2, h.2.2.1, h.2.2.2.1⟩

theorem reconcileStartup_orphan (now : Int) (fs : String → Option Nat)
    (r : Recording) (h : r.status = RecStatus.recording) :
    (reconcileStartup now fs r).id = r.id ∧
    (reconcileStartup now fs r).status = RecStatus.completed ∧
    (reconcileStartup now fs r).endTime = some now ∧
    (∀ sz, r.filePath ≠ "" → fs r.filePath = some sz →
      (reconcileStartup now fs r).fileSize = sz) := by
  obtain ⟨i, sid, fp, fn, szr, stt, et, du, pl, sid2, sn, q, stat, fav, ca, em⟩ := r
  dsimp only at h ⊢
  subst h
  unfold reconcileStartup
  dsimp only
  rw [if_pos rfl]
  by_cases hp : fp ≠ ""
  · rw [if_pos hp]
    cases hfs : fs fp
    · exact ⟨rfl, rfl, rfl, fun sz hp' h' => Option.noConfusion h'⟩
    · refine ⟨rfl, rfl, rfl, fun sz hp' h' => ?_⟩
      injection h' with he
  · rw [if_neg hp]
    exact ⟨rfl, rfl, rfl, fun sz hp' h' => absurd hp' hp⟩

/-- C8: the startup reconciliation reclassifies every Recording found with
status `recording` as `completed` and stamps its `end_time` with the current
time, unconditionally — the orphan may have no file on disk — and, when the
file exists on disk and its size is readable, also sets its `file_size` to
the on-disk size: the recovered batch contains a row with the same id,
status `completed`, `end_time = now`, and on-disk `file_size` whenever the
file is there. -/
theorem startup_reconciliation_completes_orphans (now : Int)
    (fs : String → Option Nat) (recs : List Recording) (r : Recording)
    (hmem : r ∈ recs) (h : r.status = RecStatus.recording) :
    ∃ q ∈ startupRecovery now fs recs, q.id = r.id ∧
      q.status = RecStatus.completed ∧ q.endTime = some now ∧
      ∀ sz, r.filePath ≠ "" → fs r.filePath = some sz → q.fileSize = sz := by
  obtain ⟨hid, hst, het, hsz⟩ := reconcileStartup_orphan now fs r h
  exact ⟨reconcileStartup now fs r,
    List.mem_map_of_mem (reconcileStartup now fs) hmem, hid, hst, het, hsz⟩

/-- C8 witness: two orphaned `recording`-status rows, one whose file holds
777 bytes on disk and one whose file is missing: both are reclassified
`completed` with `end_time` stamped; the first gets `file_size = 777`, the
second keeps its stored size. -/
theorem startup_reconciliation_completes_orphans_witness :
    startupRecovery 99 (fun p => if p = "recordings/f1" then some 777 else none)
        [mkRec 1 1 0 0 RecStatus.recording false,
         mkRec 2 1 5 0 RecStatus.recording false] =
      [{ mkRec 1 1 0 0 RecStatus.completed false with
          endTime := some 99, fileSize := 777 },
       { mkRec 2 1 5 0 RecStatus.completed false with endTime := some 99 }] := by
  obtain ⟨q1, hq1, hid1, hst1, het1, hsz1⟩ :=
    startup_reconciliation_completes_orphans 99
      (fun p => if p = "recordings/f1" then some 777 else none)
      [mkRec 1 1 0 0 RecStatus.recording false, mkRec 2 1 5 0 RecStatus.recording false]
      (mkRec 1 1 0 0 RecStatus.recording false) (by decide) (by decide)
  obtain ⟨q2, hq2, hid2, hst2, het2, hsz2⟩ :=
    startup_reconciliation_completes_orphans 99
      (fun p => if p = "recordings/f1" then some 777 else none)
      [mkRec 1 1 0 0 RecStatus.recording false, mkRec 2 1 5 0 RecStatus.recording false]
      (mkRec 2 1 5 0 RecStatus.recording false) (by decide) (by decide)
  decide

/-- C10 counterexample: deleting schedule 1, which owns one completed
Recording, removes that Recording row as well — the claim that every
pre-existing Recording still exists after target deletion fails, and
`schedule_id` is a non-nullable column rather than becoming null. -/
theorem recordings_cascade_deleted_counterexample :
    mkRec 1 1 5 10 RecStatus.completed false ∈
      [mkRec 1 1 5 10 RecStatus.completed false] ∧
    (cascadeDeleteSchedule [mkCountSchedule 1 3 true true]
      [mkRec 1 1 5 10 RecStatus.completed false] 1).2 = [] ∧
    ¬ ∃ q ∈ (cascadeDeleteSchedule [mkCountSchedule 1 3 true true]
      [mkRec 1 1 5 10 RecStatus.completed false] 1).2, q.id = 1 := by
  decide

/-- C10 amended: `delete_schedule` stops the monitor and removes the
schedule row, and — through the ORM cascade on
`RecordingSchedule.recordings` — removes every Recording row of that
schedule: after the operation, a recording survives exactly when it
belonged to a different schedule. -/
theorem delete_schedule_cascades_recordings (schedules : List Schedule)
    (recs : List Recording) (sid : Nat) (hex : ∃ s ∈ schedules, s.id = sid) :
    (∀ r : Recording, r ∈ (cascadeDeleteSchedule schedules recs sid).2 ↔
      (r ∈ recs ∧ r.scheduleId ≠ sid)) ∧
    (∀ s : Schedule, s ∈ (cascadeDeleteSchedule schedules recs sid).1 ↔
      (s ∈ schedules ∧ s.id ≠ sid)) := by
  have hany : schedules.any (fun s => decide (s.id = sid)) = true := by
    rw [List.any_eq_true]
    obtain ⟨s, hs, hid⟩ := hex
    exact ⟨s, hs, by simp [hid]⟩
  unfold cascadeDeleteSchedule
  rw [if_pos hany]
  constructor
  · intro r
    simp [List.mem_filter]
  · intro s
    simp [List.mem_filter]

/-- C10 amended witness: deleting schedule 1 removes its recording while the
recording of schedule 2 survives. -/
theorem delete_schedule_cascades_recordings_witness :
    mkRec 2 2 5 10 RecStatus.completed false ∈
      (cascadeDeleteSchedule [mkCountSchedule 1 3 true true]
        [mkRec 1 1 5 10 RecStatus.completed false,
         mkRec 2 2 5 10 RecStatus.completed false] 1).2 ∧
    mkRec 1 1 5 10 RecStatus.completed false ∉
      (cascadeDeleteSchedule [mkCountSchedule 1 3 true true]
        [mkRec 1 1 5 10 RecStatus.completed false,
         mkRec 2 2 5 10 RecStatus.completed false] 1).2 := by
  have h := delete_schedule_cascades_recordings [mkCountSchedule 1 3 true true]
    [mkRec 1 1 5 10 RecStatus.completed false, mkRec 2 2 5 10 RecStatus.completed false]
    1 ⟨mkCountSchedule 1 3 true true, by decide, by decide⟩
  constructor
  · exact (h.1 (mkRec 2 2 5 10 RecStatus.completed false)).mpr ⟨by decide, by decide⟩
  · intro hmem
    exact ((h.1 (mkRec 1 1 5 10 RecStatus.completed false)).mp hmem).2 (by decide)
